import Mathlib

/-!
Verification development for a browser login-automation pipeline (`app.py`).

The program is embedded shallowly:

* Python string operations `s.startswith(p)` and `needle in hay` become
  `pyStartsWith` and `pyIn`, defined over the character lists of `String`.
* The mutable run context (a Python dict threaded through the pipeline)
  becomes the structure `Ctx` with `Option` fields for keys that may be
  absent.
* All external effects (the HTTP fetch of the validator, and every
  Playwright browser operation of the login driver) are resolved by an
  oracle `Env`: each fallible browser call is a field `Option String`
  (`none` = the awaited call succeeds, `some m` = it raises an exception
  with message `m`), and each value read from the page (`page.url`,
  `page.content()`) is a plain data field.
* The login driver runs in a monad `M` over a state `S` holding the local
  `logs` list, an event trace (browser launch, explicit `browser.close()`,
  the implicit close performed by the `async with async_playwright()`
  exit, sleeps, and calls of the Gemini helper), and whether the browser
  is currently open; exceptions are the `Except` layer, caught at the
  driver boundary exactly as the Python `try/except` does.
* The LangGraph `StateGraph` of `build_graph` becomes the explicit step
  function `stepGraph` on node names with the two conditional-edge
  routers, and `run_login_flow` iterates it, recording the visited nodes
  and the accumulated event trace.
-/

/-- Python `s.startswith(p)` (`sanitize_url` uses it with the tuple
`("http://", "https://")`, embedded as a disjunction at the call site). -/
def pyStartsWith (s p : String) : Bool :=
  p.data.isPrefixOf s.data

/-- Helper for `pyIn`: is `needle` a prefix of some suffix of `hay`? -/
def pyInAux (needle : List Char) : List Char → Bool
  | [] => needle.isPrefixOf []
  | c :: rest => needle.isPrefixOf (c :: rest) || pyInAux needle rest

/-- Python `needle in hay` substring containment on strings. -/
def pyIn (needle hay : String) : Bool :=
  pyInAux needle.data hay.data

/-- `sanitize_url` from `app.py`: prefix `https://` unless the URL already
carries an `http://` or `https://` scheme. -/
def sanitize_url (url : String) : String :=
  if pyStartsWith url "http://" || pyStartsWith url "https://" then url
  else "https://" ++ url

/-- The selector dictionary produced by `FindSelectorsNode`; `none` models
an absent key, so the empty Python dict `{}` is `Sel.empty`. -/
structure Sel where
  username : Option String
  password : Option String
  submit : Option String
deriving DecidableEq

/-- The empty selector dict `{}` returned for `accounts.google.com` URLs. -/
def Sel.empty : Sel := ⟨none, none, none⟩

/-- The generic default selectors of `FindSelectorsNode` (note the single
quotes inside the submit selector, exactly as in the source). -/
def Sel.generic : Sel :=
  ⟨some "#username", some "#password",
   some "button[type='submit'], input[type='submit']"⟩

/-- Python truthiness of `selectors.get("username")`: an absent key or an
empty string is falsy. -/
def truthy : Option String → Bool
  | none => false
  | some s => s != ""

/-- The mutable run context dict. `url`, `user_input` and `password` are
the request fields (always present on entry); every other field models a
dict key that may be absent. -/
structure Ctx where
  url : String
  user_input : String
  password : String
  html : Option String
  selectors : Option Sel
  status : Option String
  error : Option String
  final_url : Option String
  screenshot : Option String
  html_content : Option String
  logs : Option (List String)
deriving DecidableEq

/-- A fresh request context as built by the presentation layer:
`{"url": url, "user_input": user_input, "password": password}`. -/
def mkRequest (url user_input password : String) : Ctx :=
  ⟨url, user_input, password, none, none, none, none, none, none, none, none⟩

/-- Observable external events of one run: browser launch, the explicit
`browser.close()`, the implicit browser teardown performed when the
`async with async_playwright()` block exits with the browser still open,
an `asyncio.sleep`/`wait_for_timeout` of the given milliseconds, and an
invocation of `gemini_suggest_selectors`. -/
inductive Event where
  | launch : Event
  | close : Event
  | stopClose : Event
  | sleep : Nat → Event
  | gemini : Event
deriving DecidableEq

def isLaunch : Event → Bool
  | .launch => true
  | _ => false

/-- A release of the acquired browser session: either the explicit
`browser.close()` or the implicit teardown at the `async with` exit. -/
def isRelease : Event → Bool
  | .close => true
  | .stopClose => true
  | _ => false

def isGemini : Event → Bool
  | .gemini => true
  | _ => false

/-- Driver-local state: the local `logs` list of `LoginNode.run`, the
event trace, whether the launched browser is currently open, and the
context dict being mutated. -/
structure S where
  logs : List String
  events : List Event
  opened : Bool
  ctx : Ctx

/-- State-plus-exception monad of the driver body: the `Except` layer is
the Python exception that the driver's `try/except` catches. -/
def M (α : Type) := S → Except String α × S

instance : Monad M where
  pure a := fun s => (Except.ok a, s)
  bind m k := fun s =>
    match m s with
    | (Except.ok a, s') => k a s'
    | (Except.error e, s') => (Except.error e, s')

/-- `logs.append(msg)`. -/
def mlog (msg : String) : M Unit :=
  fun s => (Except.ok (), { s with logs := s.logs ++ [msg] })

/-- An awaited browser/network call whose outcome the oracle dictates:
`none` succeeds, `some m` raises an exception with message `m`. -/
def oper (o : Option String) : M Unit :=
  fun s =>
    match o with
    | none => (Except.ok (), s)
    | some m => (Except.error m, s)

/-- `asyncio.sleep` / `page.wait_for_timeout` of `ms` milliseconds. -/
def msleep (ms : Nat) : M Unit :=
  fun s => (Except.ok (), { s with events := s.events ++ [Event.sleep ms] })

/-- `p.chromium.launch(...)`: on success the browser session is acquired. -/
def launchOp (o : Option String) : M Unit :=
  fun s =>
    match o with
    | none => (Except.ok (), { s with events := s.events ++ [Event.launch], opened := true })
    | some m => (Except.error m, s)

/-- The explicit `await browser.close()`. -/
def closeOp : M Unit :=
  fun s => (Except.ok (), { s with events := s.events ++ [Event.close], opened := false })

/-- A context-dict mutation `context[key] = value`. -/
def mset (f : Ctx → Ctx) : M Unit :=
  fun s => (Except.ok (), { s with ctx := f s.ctx })

/-- `context["logs"] = logs` (copies the current local log list). -/
def putLogs : M Unit :=
  fun s => (Except.ok (), { s with ctx := { s.ctx with logs := some s.logs } })

/-- The completion-polling loop (`for _ in range(60)` with
`await asyncio.sleep(2)` first in each iteration). Arguments: `old` is
`old_url`, `f i` is the value of `page.url` read in iteration `i`.
Returns the log entries the loop appends, the number of iterations
actually executed (each performed one 2-second sleep), and whether the
loop exited via `break` (the Salesforce pattern matched). -/
def pollAux (old : String) (f : Nat → String) : Nat → Nat → List String × Nat × Bool
  | _, 0 => ([], 0, false)
  | i, fuel + 1 =>
    let current := f i
    if current ≠ old then
      if pyIn "my.salesforce.com/one/one.app" current then
        (["URL changed after login submit to " ++ current,
          "Detected Salesforce main app URL pattern"], 1, true)
      else
        let r := pollAux old f (i + 1) fuel
        (("URL changed after login submit to " ++ current) :: r.1, r.2.1 + 1, r.2.2)
    else
      let r := pollAux old f (i + 1) fuel
      ("URL not changed yet, continuing to poll" :: r.1, r.2.1 + 1, r.2.2)

/-- Oracle for one driver run. The `Option String` fields are the
outcomes of the awaited calls, in source order; the data fields are the
values the page yields: `gmailUrl` is `page.url` after the Gmail
network-idle wait, `oldUrl` is `page.url` before the submit click,
`pollUrl i` is `page.url` in poll iteration `i`, `endUrl` is `page.url`
at the final capture, `navBar` tells whether the 90s
`div.oneAppNavBar` wait succeeds, and `gPageContent` / `pageContent` are
the values of `page.content()` at the Gmail early return and at the
final capture. `fetch` is the validator's `httpx` GET (body or raised
message), and `geminiResponse` models the candidate parts of the Gemini
reply. -/
structure Env where
  fetch : Except String String
  enter : Option String
  launch : Option String
  newContext : Option String
  newPage : Option String
  goto : Option String
  gWaitEmail : Option String
  gFillEmail : Option String
  gClickNext1 : Option String
  gWaitPassword : Option String
  gFillPassword : Option String
  gClickNext2 : Option String
  gWaitIdle : Option String
  gScreenshot : Option String
  gContent : Option String
  uWaitUsername : Option String
  uFillUsername : Option String
  uWaitPassword : Option String
  uFillPassword : Option String
  uWaitSubmit : Option String
  uClickSubmit : Option String
  shot : Option String
  content : Option String
  gmailUrl : String
  oldUrl : String
  endUrl : String
  pollUrl : Nat → String
  navBar : Bool
  gPageContent : String
  pageContent : String
  geminiResponse : List (List String)

/-- The `for` loop plus the `for ... else` clause of the polling section,
as one atomic state action (the loop body performs no fallible call). -/
def pollOp (env : Env) : M Unit :=
  fun s =>
    let r := pollAux env.oldUrl env.pollUrl 0 60
    let ls := if r.2.2 then r.1
      else r.1 ++ ["URL did not change after login submit within timeout"]
    (Except.ok (),
      { s with logs := s.logs ++ ls,
               events := s.events ++ List.replicate r.2.1 (Event.sleep 2000) })

/-- Gmail two-step flow, lines 112-123 of `app.py` (everything in the
`accounts.google.com` branch before the inbox-detection test). -/
def gmailSteps (env : Env) : M Unit := do
  oper env.gWaitEmail
  oper env.gFillEmail
  oper env.gClickNext1
  mlog "Filled email or username and clicked Next (Gmail step 1)"
  msleep 2000
  oper env.gWaitPassword
  oper env.gFillPassword
  oper env.gClickNext2
  mlog "Filled password and clicked Next (Gmail step 2)"
  oper env.gWaitIdle
  mlog "Gmail login completed, network idle detected"

/-- Gmail early-success return, lines 126-139 of `app.py`. -/
def gmailFinish (env : Env) : M Unit := do
  mlog "Detected Gmail inbox page, ending login flow"
  mset (fun c => { c with final_url := some env.gmailUrl })
  putLogs
  oper env.gScreenshot
  mset (fun c => { c with screenshot := some "screenshot.png" })
  oper env.gContent
  mset (fun c => { c with html_content := some env.gPageContent })
  closeOp
  mset (fun c => { c with status := some "login_attempted" })

/-- The inner `try/except` around the 90s `div.oneAppNavBar` wait,
lines 173-177: the exception is caught locally and only the log entry
differs. -/
def navTry (env : Env) : M Unit :=
  if env.navBar then mlog "Found main Salesforce app UI element"
  else mlog "Did not find main Salesforce app UI element within timeout"

/-- Body of the `if selectors.get("username")` block, lines 142-180. -/
def genForm (env : Env) : M Unit := do
  oper env.uWaitUsername
  oper env.uFillUsername
  mlog "Filled username or email"
  oper env.uWaitPassword
  oper env.uFillPassword
  mlog "Filled password"
  oper env.uWaitSubmit
  oper env.uClickSubmit
  mlog "Clicked submit button"
  pollOp env
  navTry env
  msleep 8000
  mlog "Waited additional 8s for UI stabilization"

/-- Unconditional final evidence capture, lines 182-191: screenshot,
markup, context updates, explicit close, `status = login_attempted`. -/
def capturePart (env : Env) : M Unit := do
  oper env.shot
  oper env.content
  mset (fun c =>
    { c with final_url := some env.endUrl,
             screenshot := some "screenshot.png",
             html_content := some env.pageContent })
  putLogs
  closeOp
  mset (fun c => { c with status := some "login_attempted" })

/-- Generic-form branch and final evidence capture, lines 141-191 of
`app.py` (the guarded form-interaction block followed by the
unconditional capture code). -/
def genFinish (env : Env) (selectors : Sel) : M Unit :=
  (if truthy selectors.username then genForm env else pure ()) >>= fun _ =>
    capturePart env

/-- The whole `try` body of `LoginNode.run` (entering the
playwright/stealth context, launching and configuring the browser,
navigation, and the branch structure). -/
def loginBody (env : Env) (c : Ctx) : M Unit := do
  oper env.enter
  launchOp env.launch
  oper env.newContext
  oper env.newPage
  oper env.goto
  mlog ("Visited " ++ sanitize_url c.url)
  if pyIn "accounts.google.com" (sanitize_url c.url) then
    gmailSteps env
    if pyIn "mail.google.com" env.gmailUrl then
      gmailFinish env
    else
      genFinish env (c.selectors.getD Sel.empty)
  else
    genFinish env (c.selectors.getD Sel.empty)

/-- Initial driver-local state: `logs = []`, no events, browser closed. -/
def initS (c : Ctx) : S := ⟨[], [], false, c⟩

/-- Exit of the `async with` block: stopping playwright tears the browser
down if (and only if) it is still open. Runs both on normal completion
and while an exception propagates to the `except` clause. -/
def finalizeS (s : S) : S :=
  if s.opened then { s with events := s.events ++ [Event.stopClose], opened := false }
  else s

/-- `LoginNode.run`: run the `try` body, let the `async with` exit run,
and on an exception apply the `except` clause (append the message to the
local logs, record `error`, copy `logs`, set `status = login_failed`).
Returns the final context and the event trace of the run. -/
def LoginNode.run (env : Env) (c : Ctx) : Ctx × List Event :=
  match loginBody env c (initS c) with
  | (Except.ok _, s) =>
    let s' := finalizeS s
    (s'.ctx, s'.events)
  | (Except.error m, s) =>
    let s' := finalizeS s
    ({ s'.ctx with error := some m,
                   logs := some (s'.logs ++ ["Exception: " ++ m]),
                   status := some "login_failed" },
     s'.events)

/-- `ValidateNode.run`: bounded `httpx` GET of `context["url"]`; the body
becomes `html` and `status = validated`, any exception becomes `error`
and `status = failed`. -/
def ValidateNode.run (env : Env) (c : Ctx) : Ctx :=
  match env.fetch with
  | Except.ok body => { c with html := some body, status := some "validated" }
  | Except.error m => { c with error := some m, status := some "failed" }

/-- `FindSelectorsNode.run`: empty selector dict for URLs containing
`accounts.google.com`, the fixed generic defaults otherwise; always
`status = selectors_found`. -/
def FindSelectorsNode.run (c : Ctx) : Ctx :=
  if pyIn "accounts.google.com" c.url then
    { c with selectors := some Sel.empty, status := some "selectors_found" }
  else
    { c with selectors := some Sel.generic, status := some "selectors_found" }

/-- Inner scan of `gemini_suggest_selectors`: first part text mentioning
`username`, `password` or `submit`. -/
def geminiPick : List String → Option String
  | [] => none
  | p :: ps =>
    if pyIn "username" p || pyIn "password" p || pyIn "submit" p then some p
    else geminiPick ps

def geminiScan : List (List String) → Option String
  | [] => none
  | parts :: rest =>
    match geminiPick parts with
    | some s => some s
    | none => geminiScan rest

/-- `gemini_suggest_selectors`: posts the page HTML to the remote
endpoint (the reply's candidate part texts are `env.geminiResponse`) and
scans them; its invocation is the `Event.gemini` trace entry. No
pipeline stage calls this function. -/
def gemini_suggest_selectors (env : Env) (_html : String) : Option String × List Event :=
  (geminiScan env.geminiResponse, [Event.gemini])

/-- Node names of the `StateGraph` built by `build_graph`, plus the
implicit terminal. -/
inductive Node where
  | validate : Node
  | find_selectors : Node
  | login : Node
  | fail : Node
  | END : Node
deriving DecidableEq

/-- Conditional edge out of `validate`:
`lambda ctx: "find_selectors" if ctx.get("status") == "validated" else "fail"`. -/
def route_validate (c : Ctx) : Node :=
  if c.status = some "validated" then Node.find_selectors else Node.fail

/-- Conditional edge out of `find_selectors`:
`lambda ctx: "login" if ctx.get("status") == "selectors_found" else "fail"`. -/
def route_find (c : Ctx) : Node :=
  if c.status = some "selectors_found" then Node.login else Node.fail

/-- The `fail` node: `lambda ctx: ctx`. -/
def fail_node (c : Ctx) : Ctx := c

/-- One step of the compiled graph: run the current node on the context,
then follow its (conditional) edge; `login` and `fail` have no outgoing
edges and end the run. Also yields the events of the step. -/
def stepGraph (env : Env) : Node → Ctx → Node × Ctx × List Event
  | Node.validate, c =>
    let c' := ValidateNode.run env c
    (route_validate c', c', [])
  | Node.find_selectors, c =>
    let c' := FindSelectorsNode.run c
    (route_find c', c', [])
  | Node.login, c =>
    let r := LoginNode.run env c
    (Node.END, r.1, r.2)
  | Node.fail, c => (Node.END, fail_node c, [])
  | Node.END, c => (Node.END, c, [])

/-- Iterate the graph from a node, collecting the visited (executed)
nodes and the accumulated events. The graph has no cycle, so fuel `5`
always suffices. -/
def runAux (env : Env) : Nat → Node → Ctx → Ctx × List Node × List Event
  | 0, _, c => (c, [], [])
  | _ + 1, Node.END, c => (c, [], [])
  | fuel + 1, n, c =>
    let r := stepGraph env n c
    let rest := runAux env fuel r.1 r.2.1
    (rest.1, n :: rest.2.1, r.2.2 ++ rest.2.2)

/-- `run_login_flow`: invoke the compiled graph from its entry point
`validate`. -/
def run_login_flow (env : Env) (c : Ctx) : Ctx × List Node × List Event :=
  runAux env 5 Node.validate c

/-- Number of browser launches in a trace. -/
def launchCount (es : List Event) : Nat := List.countP isLaunch es

/-- Number of session releases (explicit close or implicit teardown). -/
def releaseCount (es : List Event) : Nat := List.countP isRelease es

/-- Number of Gemini invocations in a trace. -/
def geminiCount (es : List Event) : Nat := List.countP isGemini es

/-- Resource invariant of a driver state: at most one launch so far, the
launched session is either still open or has been released exactly once,
and Gemini was never called. -/
def traceOK (s : S) : Prop :=
  launchCount s.events ≤ 1 ∧
  releaseCount s.events + (if s.opened then 1 else 0) = launchCount s.events ∧
  geminiCount s.events = 0

/-- State shape between the launch and the (unique) release: the browser
is open, launched exactly once, never released, Gemini never called. -/
def openedOK (s : S) : Prop :=
  s.opened = true ∧ launchCount s.events = 1 ∧ releaseCount s.events = 0 ∧
  geminiCount s.events = 0

/-- An action that neither launches, releases, calls Gemini, nor toggles
the open flag (it may log, sleep, fail, or mutate the context). -/
def PresEv (m : M Unit) : Prop :=
  ∀ s : S,
    launchCount ((m s).2).events = launchCount s.events ∧
    releaseCount ((m s).2).events = releaseCount s.events ∧
    geminiCount ((m s).2).events = geminiCount s.events ∧
    ((m s).2).opened = s.opened

/-- A base oracle in which every awaited call succeeds and all page reads
yield fixed innocuous values; concrete scenarios below override fields. -/
def baseEnv : Env where
  fetch := Except.ok "<html></html>"
  enter := none
  launch := none
  newContext := none
  newPage := none
  goto := none
  gWaitEmail := none
  gFillEmail := none
  gClickNext1 := none
  gWaitPassword := none
  gFillPassword := none
  gClickNext2 := none
  gWaitIdle := none
  gScreenshot := none
  gContent := none
  uWaitUsername := none
  uFillUsername := none
  uWaitPassword := none
  uFillPassword := none
  uWaitSubmit := none
  uClickSubmit := none
  shot := none
  content := none
  gmailUrl := "https://accounts.google.com/signin/v2/challenge"
  oldUrl := "https://site.example/login"
  endUrl := "https://site.example/home"
  pollUrl := fun _ => "https://site.example/login"
  navBar := false
  gPageContent := "<html>gmail</html>"
  pageContent := "<html>page</html>"
  geminiResponse := []

/-- Log list of a run that goes through the Gmail two-step flow (after
the navigation entry) up to the inbox-detection test. -/
def gmailStepLogs (c : Ctx) : List String :=
  ["Visited " ++ sanitize_url c.url,
   "Filled email or username and clicked Next (Gmail step 1)",
   "Filled password and clicked Next (Gmail step 2)",
   "Gmail login completed, network idle detected"]

/-- Log list of a Gmail early-success run. -/
def gmailLogs (c : Ctx) : List String :=
  gmailStepLogs c ++ ["Detected Gmail inbox page, ending login flow"]

/-- Log list of a full generic-form run (polling segment and the
`for ... else` entry included, nav-marker entry depending on the oracle). -/
def genericRunLogs (env : Env) (c : Ctx) : List String :=
  ["Visited " ++ sanitize_url c.url, "Filled username or email", "Filled password",
   "Clicked submit button"] ++
    (let r := pollAux env.oldUrl env.pollUrl 0 60
     if r.2.2 then r.1
     else r.1 ++ ["URL did not change after login submit within timeout"]) ++
    [if env.navBar then "Found main Salesforce app UI element"
     else "Did not find main Salesforce app UI element within timeout"] ++
    ["Waited additional 8s for UI stabilization"]

/-- Event trace of a full generic-form run. -/
def genericRunEvents (env : Env) : List Event :=
  [Event.launch] ++
    List.replicate (pollAux env.oldUrl env.pollUrl 0 60).2.1 (Event.sleep 2000) ++
    [Event.sleep 8000] ++ [Event.close]

/-- Scenario: the validator's fetch raises. -/
def envUnreachable : Env := { baseEnv with fetch := Except.error "connection refused" }

/-- Scenario: `page.goto` raises inside the driver. -/
def envGotoFails : Env := { baseEnv with goto := some "net::ERR_NAME_NOT_RESOLVED" }

/-- Scenario: Gmail flow lands on the inbox. -/
def envGmailInbox : Env := { baseEnv with gmailUrl := "https://mail.google.com/mail/u/0/" }

/-- Scenario: after submit the URL changes every poll iteration but never
matches the Salesforce pattern. -/
def envPollChanged : Env := { baseEnv with pollUrl := fun _ => "https://site.example/home" }

/-- A request against the federated (Gmail) login domain. -/
def reqGmail : Ctx := mkRequest "https://accounts.google.com/signin" "u" "p"

/-- A request against a plain generic site. -/
def reqGeneric : Ctx := mkRequest "https://site.example/login" "u" "p"

/-- The generic request after selector resolution. -/
def reqGenericSel : Ctx := { reqGeneric with selectors := some Sel.generic }

/-- The federated request after selector resolution (empty SelectorSet). -/
def reqGmailSel : Ctx := { reqGmail with selectors := some Sel.empty }

/-! ## Helper lemmas about the driver monad and traces -/

theorem bind_app {α β : Type} (m : M α) (k : α → M β) (s : S) :
    (m >>= k) s =
      match m s with
      | (Except.ok a, s') => k a s'
      | (Except.error e, s') => (Except.error e, s') := rfl

theorem countP_replicate_event (p : Event → Bool) (n : Nat) (e : Event)
    (hp : p e = false) : List.countP p (List.replicate n e) = 0 := by
  induction n with
  | zero => simp
  | succ n ih => simp [List.replicate, List.countP_cons, hp, ih]

theorem presEv_oper (o : Option String) : PresEv (oper o) := by
  intro s; cases o <;> exact ⟨rfl, rfl, rfl, rfl⟩

theorem presEv_mlog (msg : String) : PresEv (mlog msg) :=
  fun _ => ⟨rfl, rfl, rfl, rfl⟩

theorem presEv_mset (f : Ctx → Ctx) : PresEv (mset f) :=
  fun _ => ⟨rfl, rfl, rfl, rfl⟩

theorem presEv_putLogs : PresEv putLogs :=
  fun _ => ⟨rfl, rfl, rfl, rfl⟩

theorem presEv_pure : PresEv (pure ()) :=
  fun _ => ⟨rfl, rfl, rfl, rfl⟩

theorem presEv_msleep (ms : Nat) : PresEv (msleep ms) := by
  intro s
  refine ⟨?_, ?_, ?_, rfl⟩ <;>
    simp [msleep, launchCount, releaseCount, geminiCount, List.countP_append,
      isLaunch, isRelease, isGemini]

theorem presEv_pollOp (env : Env) : PresEv (pollOp env) := by
  intro s
  refine ⟨?_, ?_, ?_, rfl⟩ <;>
    simp [pollOp, launchCount, releaseCount, geminiCount, List.countP_append,
      countP_replicate_event, isLaunch, isRelease, isGemini]

theorem presEv_ite {c : Prop} [Decidable c] {a b : M Unit}
    (ha : PresEv a) (hb : PresEv b) : PresEv (if c then a else b) := by
  by_cases h : c <;> simp [h] <;> assumption

theorem presEv_bind {m : M Unit} {k : Unit → M Unit}
    (hm : PresEv m) (hk : PresEv (k ())) : PresEv (m >>= k) := by
  intro s
  rw [bind_app]
  rcases hms : m s with ⟨r, s'⟩
  have h1 := hm s
  rw [hms] at h1
  cases r with
  | ok a =>
    cases a
    have h2 := hk s'
    exact ⟨h2.1.trans h1.1, h2.2.1.trans h1.2.1, h2.2.2.1.trans h1.2.2.1,
      h2.2.2.2.trans h1.2.2.2⟩
  | error e => exact h1

theorem openedOK_traceOK {s : S} (h : openedOK s) : traceOK s := by
  obtain ⟨h1, h2, h3, h4⟩ := h
  refine ⟨by omega, ?_, h4⟩
  simp [h1, h2, h3]

theorem presEv_openedOK {m : M Unit} (hm : PresEv m) {s : S}
    (h : openedOK s) : openedOK ((m s).2) := by
  obtain ⟨h1, h2, h3, h4⟩ := h
  obtain ⟨g1, g2, g3, g4⟩ := hm s
  exact ⟨g4.trans h1, g1.trans h2, g2.trans h3, g3.trans h4⟩

theorem seq_pres_then {m : M Unit} {k : Unit → M Unit} (hm : PresEv m)
    (hk : ∀ s, openedOK s → traceOK ((k () s)).2) :
    ∀ s, openedOK s → traceOK ((m >>= k) s).2 := by
  intro s h
  rw [bind_app]
  rcases hms : m s with ⟨r, s'⟩
  have h' : openedOK s' := by
    have := presEv_openedOK hm h
    rwa [hms] at this
  cases r with
  | ok a => cases a; exact hk s' h'
  | error e => exact openedOK_traceOK h'

theorem countL_close : List.countP isLaunch [Event.close] = 0 := rfl
theorem countR_close : List.countP isRelease [Event.close] = 1 := rfl
theorem countG_close : List.countP isGemini [Event.close] = 0 := rfl
theorem countL_stop : List.countP isLaunch [Event.stopClose] = 0 := rfl
theorem countR_stop : List.countP isRelease [Event.stopClose] = 1 := rfl
theorem countG_stop : List.countP isGemini [Event.stopClose] = 0 := rfl

theorem closeMset_state (f : Ctx → Ctx) (s : S) :
    (closeOp >>= fun _ => mset f) s =
      (Except.ok (),
        { s with events := s.events ++ [Event.close], opened := false,
                 ctx := f s.ctx }) := rfl

theorem closeTail_tr (f : Ctx → Ctx) :
    ∀ s, openedOK s → traceOK (((closeOp >>= fun _ => mset f)) s).2 := by
  intro s h
  obtain ⟨h1, h2, h3, h4⟩ := h
  simp only [launchCount, releaseCount, geminiCount] at h2 h3 h4
  rw [closeMset_state]
  refine ⟨?_, ?_, ?_⟩
  · show List.countP isLaunch (s.events ++ [Event.close]) ≤ 1
    rw [List.countP_append, h2, countL_close]
  · show List.countP isRelease (s.events ++ [Event.close]) + 0 =
      List.countP isLaunch (s.events ++ [Event.close])
    rw [List.countP_append, List.countP_append, h2, h3, countL_close, countR_close]
  · show List.countP isGemini (s.events ++ [Event.close]) = 0
    rw [List.countP_append, h4, countG_close]

theorem gmailFinish_tr (env : Env) :
    ∀ s, openedOK s → traceOK ((gmailFinish env) s).2 := by
  unfold gmailFinish
  refine seq_pres_then (presEv_mlog _) ?_
  refine seq_pres_then (presEv_mset _) ?_
  refine seq_pres_then presEv_putLogs ?_
  refine seq_pres_then (presEv_oper _) ?_
  refine seq_pres_then (presEv_mset _) ?_
  refine seq_pres_then (presEv_oper _) ?_
  refine seq_pres_then (presEv_mset _) ?_
  exact closeTail_tr _

theorem presEv_navTry (env : Env) : PresEv (navTry env) := by
  unfold navTry
  exact presEv_ite (presEv_mlog _) (presEv_mlog _)

theorem genForm_pres (env : Env) : PresEv (genForm env) := by
  unfold genForm
  repeat' first
    | exact presEv_oper _
    | exact presEv_mlog _
    | exact presEv_msleep _
    | exact presEv_pollOp _
    | exact presEv_navTry _
    | apply presEv_bind

theorem capturePart_tr (env : Env) :
    ∀ s, openedOK s → traceOK ((capturePart env) s).2 := by
  unfold capturePart
  refine seq_pres_then (presEv_oper _) ?_
  refine seq_pres_then (presEv_oper _) ?_
  refine seq_pres_then (presEv_mset _) ?_
  refine seq_pres_then presEv_putLogs ?_
  exact closeTail_tr _

theorem genFinish_tr (env : Env) (sel : Sel) :
    ∀ s, openedOK s → traceOK ((genFinish env sel) s).2 := by
  unfold genFinish
  exact seq_pres_then (presEv_ite (genForm_pres env) presEv_pure)
    (capturePart_tr env)

theorem gmailSteps_pres (env : Env) : PresEv (gmailSteps env) := by
  unfold gmailSteps
  repeat' first
    | exact presEv_oper _
    | exact presEv_mlog _
    | exact presEv_msleep _
    | apply presEv_bind

theorem initS_traceOK (c : Ctx) : traceOK (initS c) := by
  refine ⟨?_, ?_, ?_⟩ <;> simp [initS, launchCount, releaseCount, geminiCount]

theorem loginBody_tr (env : Env) (c : Ctx) :
    traceOK ((loginBody env c (initS c))).2 := by
  unfold loginBody
  rw [bind_app]
  cases he : env.enter with
  | some m => simp only [oper]; exact initS_traceOK c
  | none =>
    simp only [oper]
    rw [bind_app]
    cases hl : env.launch with
    | some m => simp only [launchOp]; exact initS_traceOK c
    | none =>
      simp only [launchOp]
      have hs1 : openedOK
          { initS c with events := (initS c).events ++ [Event.launch], opened := true } := by
        refine ⟨rfl, ?_, ?_, ?_⟩ <;>
          simp [initS, launchCount, releaseCount, geminiCount, isLaunch,
            isRelease, isGemini]
      refine seq_pres_then (presEv_oper _) ?_ _ hs1
      refine seq_pres_then (presEv_oper _) ?_
      refine seq_pres_then (presEv_oper _) ?_
      refine seq_pres_then (presEv_mlog _) ?_
      intro s h
      cases hg : pyIn "accounts.google.com" (sanitize_url c.url)
      · simp only [hg, Bool.false_eq_true, if_false]
        exact genFinish_tr env _ s h
      · simp only [hg, if_true]
        refine seq_pres_then (gmailSteps_pres env) ?_ s h
        intro s' h'
        cases hm : pyIn "mail.google.com" env.gmailUrl
        · simp only [hm, Bool.false_eq_true, if_false]
          exact genFinish_tr env _ s' h'
        · simp only [hm, if_true]
          exact gmailFinish_tr env s' h'

theorem finalize_counts (s : S) (h : traceOK s) :
    releaseCount (finalizeS s).events = launchCount (finalizeS s).events ∧
    launchCount (finalizeS s).events ≤ 1 ∧
    geminiCount (finalizeS s).events = 0 := by
  obtain ⟨h1, h2, h3⟩ := h
  simp only [launchCount, releaseCount, geminiCount] at h1 h2 h3 ⊢
  unfold finalizeS
  cases ho : s.opened
  · simp only [ho] at h2
    simp at h2
    simp only [ho, Bool.false_eq_true, if_false]
    exact ⟨h2, h1, h3⟩
  · simp only [ho] at h2
    simp at h2
    simp only [ho, if_true]
    refine ⟨?_, ?_, ?_⟩
    · show List.countP isRelease (s.events ++ [Event.stopClose]) =
        List.countP isLaunch (s.events ++ [Event.stopClose])
      rw [List.countP_append, List.countP_append, countL_stop, countR_stop]
      omega
    · show List.countP isLaunch (s.events ++ [Event.stopClose]) ≤ 1
      rw [List.countP_append, countL_stop]
      omega
    · show List.countP isGemini (s.events ++ [Event.stopClose]) = 0
      rw [List.countP_append, countG_stop, h3]

theorem run_trace (env : Env) (c : Ctx) :
    releaseCount (LoginNode.run env c).2 = launchCount (LoginNode.run env c).2 ∧
    launchCount (LoginNode.run env c).2 ≤ 1 ∧
    geminiCount (LoginNode.run env c).2 = 0 := by
  unfold LoginNode.run
  have hb := loginBody_tr env c
  rcases hres : loginBody env c (initS c) with ⟨r, s⟩
  rw [hres] at hb
  cases r with
  | ok a => exact finalize_counts s hb
  | error m => exact finalize_counts s hb

theorem geminiCount_append (a b : List Event) :
    geminiCount (a ++ b) = geminiCount a + geminiCount b := by
  simp [geminiCount, List.countP_append]

theorem pipeline_gemini (env : Env) :
    ∀ fuel n c, geminiCount (runAux env fuel n c).2.2 = 0 := by
  intro fuel
  induction fuel with
  | zero => intro n c; rfl
  | succ fuel ih =>
    intro n c
    cases n with
    | END => rfl
    | validate =>
      show geminiCount ((stepGraph env Node.validate c).2.2 ++ _) = 0
      rw [show (stepGraph env Node.validate c).2.2 = [] from rfl]
      rw [List.nil_append]
      exact ih _ _
    | find_selectors =>
      show geminiCount ((stepGraph env Node.find_selectors c).2.2 ++ _) = 0
      rw [show (stepGraph env Node.find_selectors c).2.2 = [] from rfl]
      rw [List.nil_append]
      exact ih _ _
    | fail =>
      show geminiCount ((stepGraph env Node.fail c).2.2 ++ _) = 0
      rw [show (stepGraph env Node.fail c).2.2 = [] from rfl]
      rw [List.nil_append]
      exact ih _ _
    | login =>
      show geminiCount ((LoginNode.run env c).2 ++ _) = 0
      rw [geminiCount_append, (run_trace env c).2.2, ih]

theorem pollAux_le (old : String) (f : Nat → String) :
    ∀ fuel i, (pollAux old f i fuel).2.1 ≤ fuel := by
  intro fuel
  induction fuel with
  | zero => intro i; exact Nat.le.refl
  | succ fuel ih =>
    intro i
    unfold pollAux
    dsimp only
    split
    · split
      · simp
      · have := ih (i + 1)
        simp only []
        omega
    · have := ih (i + 1)
      simp only []
      omega

theorem visited_ne (x t : String) (h : t.data.head? ≠ some 'V') :
    ("Visited " ++ x) ≠ t := by
  intro he
  apply h
  rw [← he]
  rfl

/-! ## Claim theorems -/

/-- C1: for every run of the Login Driver — every oracle-determined exit
path, normal, Gmail early-success, or exceptional — the browser session
is launched at most once, and the number of session releases (explicit
`browser.close()` plus the implicit teardown at the `async with` exit)
equals the number of launches: every acquired session is released, and
released exactly once. -/
theorem C1_session_release (env : Env) (c : Ctx) :
    launchCount (LoginNode.run env c).2 ≤ 1 ∧
    releaseCount (LoginNode.run env c).2 = launchCount (LoginNode.run env c).2 :=
  ⟨(run_trace env c).2.1, (run_trace env c).1⟩

/-- C2: any exception raised by a step of the driver body (session
acquire, navigation, fill, click, waits, capture) is caught at the
driver boundary: the message is appended to the local logs and copied
into the context, recorded as the context's `error`, and `status` is set
to `login_failed`; the driver still returns a context (no exception
escapes, `LoginNode.run` is total). -/
theorem C2_driver_catches_exceptions (env : Env) (c : Ctx) (m : String) (s : S)
    (h : loginBody env c (initS c) = (Except.error m, s)) :
    (LoginNode.run env c).1.status = some "login_failed" ∧
    (LoginNode.run env c).1.error = some m ∧
    (LoginNode.run env c).1.logs = some (s.logs ++ ["Exception: " ++ m]) := by
  unfold LoginNode.run
  rw [h]
  have hl : (finalizeS s).logs = s.logs := by
    unfold finalizeS; split <;> rfl
  refine ⟨rfl, rfl, ?_⟩
  show some ((finalizeS s).logs ++ ["Exception: " ++ m]) =
    some (s.logs ++ ["Exception: " ++ m])
  rw [hl]

/-- C2 witness: with `page.goto` raising `net::ERR_NAME_NOT_RESOLVED`,
the run ends `login_failed` with the exception logged and recorded. -/
theorem C2_witness :
    (LoginNode.run envGotoFails reqGeneric).1.status = some "login_failed" ∧
    (LoginNode.run envGotoFails reqGeneric).1.error = some "net::ERR_NAME_NOT_RESOLVED" ∧
    (LoginNode.run envGotoFails reqGeneric).1.logs =
      some ["Exception: net::ERR_NAME_NOT_RESOLVED"] := by
  have h := C2_driver_catches_exceptions envGotoFails reqGeneric
    "net::ERR_NAME_NOT_RESOLVED" ⟨[], [Event.launch], true, reqGeneric⟩ rfl
  exact ⟨h.1, h.2.1, h.2.2⟩

/-- C3: when the validator's fetch raises (message `m`, non-empty for any
real network failure), the pipeline ends with `status = failed`, the
error recorded, no `finalUrl`, no `logs` key at all (hence no login-stage
entries), the executed nodes are exactly `validate` then `fail`, and the
Login Driver node is never invoked. -/
theorem C3_unreachable_url_fails_fast (env : Env) (url user_input password m : String)
    (hf : env.fetch = Except.error m) (hm : m ≠ "") :
    (run_login_flow env (mkRequest url user_input password)).1.status = some "failed" ∧
    (run_login_flow env (mkRequest url user_input password)).1.error = some m ∧
    m ≠ "" ∧
    (run_login_flow env (mkRequest url user_input password)).1.final_url = none ∧
    (run_login_flow env (mkRequest url user_input password)).1.logs = none ∧
    (run_login_flow env (mkRequest url user_input password)).2.1 = [Node.validate, Node.fail] ∧
    Node.login ∉ (run_login_flow env (mkRequest url user_input password)).2.1 := by
  have hstep : run_login_flow env (mkRequest url user_input password) =
      ({ mkRequest url user_input password with error := some m, status := some "failed" },
       [Node.validate, Node.fail], []) := by
    unfold run_login_flow runAux stepGraph ValidateNode.run route_validate
    rw [hf]
    simp [mkRequest, runAux, stepGraph, fail_node]
  rw [hstep]
  exact ⟨rfl, rfl, hm, rfl, rfl, rfl,
    show Node.login ∉ [Node.validate, Node.fail] by decide⟩

/-- C3 witness: a concrete unreachable request. -/
theorem C3_witness :
    (run_login_flow envUnreachable (mkRequest "https://example.test" "u" "p")).1.status =
      some "failed" ∧
    (run_login_flow envUnreachable (mkRequest "https://example.test" "u" "p")).1.error =
      some "connection refused" ∧
    "connection refused" ≠ "" ∧
    (run_login_flow envUnreachable (mkRequest "https://example.test" "u" "p")).1.final_url =
      none ∧
    (run_login_flow envUnreachable (mkRequest "https://example.test" "u" "p")).1.logs = none ∧
    (run_login_flow envUnreachable (mkRequest "https://example.test" "u" "p")).2.1 =
      [Node.validate, Node.fail] ∧
    Node.login ∉ (run_login_flow envUnreachable (mkRequest "https://example.test" "u" "p")).2.1 :=
  C3_unreachable_url_fails_fast envUnreachable "https://example.test" "u" "p"
    "connection refused" rfl (by decide)

/-- C4 counterexample: for a URL not matching any special-cased pattern,
the resolved submit selector is `button[type='submit'], input[type='submit']`
(single quotes inside), not the claimed exact string
`button[type=submit], input[type=submit]`. -/
theorem C4_counterexample :
    pyIn "accounts.google.com" (mkRequest "https://example.com/login" "u" "p").url = false ∧
    (FindSelectorsNode.run (mkRequest "https://example.com/login" "u" "p")).selectors ≠
      some ⟨some "#username", some "#password",
            some "button[type=submit], input[type=submit]"⟩ ∧
    (FindSelectorsNode.run (mkRequest "https://example.com/login" "u" "p")).selectors =
      some ⟨some "#username", some "#password",
            some "button[type='submit'], input[type='submit']"⟩ := by
  decide

/-- C4 (amended): for every URL containing the federated domain the
resolver yields the empty SelectorSet; for every other URL it yields
exactly the fixed generic defaults `#username`, `#password`,
`button[type='submit'], input[type='submit']` (single quotes included);
in every case `status = selectors_found`. -/
theorem C4_resolver_outputs (c : Ctx) :
    (pyIn "accounts.google.com" c.url = true →
      (FindSelectorsNode.run c).selectors = some Sel.empty) ∧
    (pyIn "accounts.google.com" c.url = false →
      (FindSelectorsNode.run c).selectors = some Sel.generic) ∧
    (FindSelectorsNode.run c).status = some "selectors_found" := by
  refine ⟨fun h => ?_, fun h => ?_, ?_⟩
  · simp [FindSelectorsNode.run, h]
  · simp [FindSelectorsNode.run, h]
  · unfold FindSelectorsNode.run
    split <;> rfl

/-- C4 witness: both branches of the amended claim at concrete URLs. -/
theorem C4_witness :
    (FindSelectorsNode.run (mkRequest "https://accounts.google.com/signin" "u" "p")).selectors =
      some Sel.empty ∧
    (FindSelectorsNode.run (mkRequest "https://example.com/login" "u" "p")).selectors =
      some Sel.generic ∧
    (FindSelectorsNode.run (mkRequest "https://example.com/login" "u" "p")).status =
      some "selectors_found" :=
  ⟨(C4_resolver_outputs _).1 (by decide),
   (C4_resolver_outputs _).2.1 (by decide),
   (C4_resolver_outputs _).2.2⟩

/-- C8: the orchestrator routes `validate → find_selectors` iff the
post-node status is `validated` (else to `fail`), routes
`find_selectors → login` iff the status is `selectors_found` (else to
`fail`), the `fail` node is the identity on the context, and the `fail`
step of the graph forwards the context unchanged with no events. -/
theorem C8_orchestrator_routing (c : Ctx) :
    (route_validate c = Node.find_selectors ↔ c.status = some "validated") ∧
    (route_validate c = Node.fail ↔ c.status ≠ some "validated") ∧
    (route_find c = Node.login ↔ c.status = some "selectors_found") ∧
    (route_find c = Node.fail ↔ c.status ≠ some "selectors_found") ∧
    fail_node c = c ∧
    (∀ env : Env, stepGraph env Node.fail c = (Node.END, c, [])) := by
  refine ⟨?_, ?_, ?_, ?_, rfl, fun env => rfl⟩
  · unfold route_validate
    by_cases h : c.status = some "validated" <;> simp [h]
  · unfold route_validate
    by_cases h : c.status = some "validated" <;> simp [h]
  · unfold route_find
    by_cases h : c.status = some "selectors_found" <;> simp [h]
  · unfold route_find
    by_cases h : c.status = some "selectors_found" <;> simp [h]

/-- C8 witness: routing and the identity of `fail` at concrete contexts. -/
theorem C8_witness :
    route_validate { mkRequest "https://a.example" "u" "p" with status := some "validated" } =
      Node.find_selectors ∧
    fail_node (mkRequest "https://a.example" "u" "p") = mkRequest "https://a.example" "u" "p" :=
  ⟨(C8_orchestrator_routing _).1.mpr rfl,
   (C8_orchestrator_routing (mkRequest "https://a.example" "u" "p")).2.2.2.2.1⟩

/-- C9: `sanitize_url` is idempotent; it returns its input unchanged iff
the input starts with `http://` or `https://`; and on every other input
(including other schemes such as `ftp://host`) it returns `https://`
prepended verbatim. -/
theorem C9_sanitize_url_props (u : String) :
    sanitize_url (sanitize_url u) = sanitize_url u ∧
    (sanitize_url u = u ↔
      (pyStartsWith u "http://" || pyStartsWith u "https://") = true) ∧
    ((pyStartsWith u "http://" || pyStartsWith u "https://") = false →
      sanitize_url u = "https://" ++ u) := by
  cases h : (pyStartsWith u "http://" || pyStartsWith u "https://") with
  | true =>
    refine ⟨?_, ?_, fun hf => ?_⟩
    · simp [sanitize_url, h]
    · simp [sanitize_url, h]
    · exact absurd hf (by decide)
  | false =>
    have hs : sanitize_url u = "https://" ++ u := by simp [sanitize_url, h]
    have hidem : pyStartsWith ("https://" ++ u) "https://" = true := by
      show ("https://".data).isPrefixOf ("https://".data ++ u.data) = true
      simp [ List.isPrefixOf_iff_prefix]
    refine ⟨?_, ⟨fun he => ?_, fun ht => ?_⟩, fun _ => hs⟩
    · rw [hs]
      simp [sanitize_url, hidem]
    · rw [hs] at he
      have h2 := congrArg String.length he
      rw [String.length_append] at h2
      have h8 : "https://".length = 8 := rfl
      omega
    · exact absurd ht (by decide)

/-- C9 witness: the scheme-carrying input `ftp://host` gets `https://`
prepended verbatim, and a second application is a fixed point. -/
theorem C9_witness :
    sanitize_url "ftp://host" = "https://" ++ "ftp://host" ∧
    sanitize_url (sanitize_url "ftp://host") = sanitize_url "ftp://host" :=
  ⟨(C9_sanitize_url_props "ftp://host").2.2 (by decide),
   (C9_sanitize_url_props "ftp://host").1⟩

/-- C10: the selector resolver's `selectors` and `status` outputs agree
on any two contexts with equal `url` fields (indeed on any two contexts
whose URLs agree on containing the federated domain), regardless of
every other context field; and no pipeline run ever emits a Gemini
invocation event — `gemini_suggest_selectors` is dead code in the
pipeline. -/
theorem C10_resolver_determinism_no_ai :
    (∀ c₁ c₂ : Ctx, c₁.url = c₂.url →
      (FindSelectorsNode.run c₁).selectors = (FindSelectorsNode.run c₂).selectors ∧
      (FindSelectorsNode.run c₁).status = (FindSelectorsNode.run c₂).status) ∧
    (∀ c₁ c₂ : Ctx,
      pyIn "accounts.google.com" c₁.url = pyIn "accounts.google.com" c₂.url →
      (FindSelectorsNode.run c₁).selectors = (FindSelectorsNode.run c₂).selectors ∧
      (FindSelectorsNode.run c₁).status = (FindSelectorsNode.run c₂).status) ∧
    (∀ (env : Env) (c : Ctx), geminiCount (run_login_flow env c).2.2 = 0) := by
  have key : ∀ c₁ c₂ : Ctx,
      pyIn "accounts.google.com" c₁.url = pyIn "accounts.google.com" c₂.url →
      (FindSelectorsNode.run c₁).selectors = (FindSelectorsNode.run c₂).selectors ∧
      (FindSelectorsNode.run c₁).status = (FindSelectorsNode.run c₂).status := by
    intro c₁ c₂ h
    unfold FindSelectorsNode.run
    cases h2 : pyIn "accounts.google.com" c₂.url <;> rw [h2] at h <;> simp [h, h2]
  exact ⟨fun c₁ c₂ h => key c₁ c₂ (by rw [h]), key,
    fun env c => pipeline_gemini env 5 Node.validate c⟩

/-- C10 witness: two contexts equal in `url` but different in markup and
credentials resolve identically. -/
theorem C10_witness :
    (FindSelectorsNode.run
        { mkRequest "https://example.com" "a" "b" with html := some "<p>x</p>" }).selectors =
      (FindSelectorsNode.run
        { mkRequest "https://example.com" "c" "d" with html := some "<p>y</p>" }).selectors ∧
    (FindSelectorsNode.run
        { mkRequest "https://example.com" "a" "b" with html := some "<p>x</p>" }).status =
      (FindSelectorsNode.run
        { mkRequest "https://example.com" "c" "d" with html := some "<p>y</p>" }).status :=
  C10_resolver_determinism_no_ai.1 _ _ rfl

theorem not_mem_gmailStepLogs (c : Ctx) (t : String)
    (hv : t.data.head? ≠ some 'V')
    (e1 : t ≠ "Filled email or username and clicked Next (Gmail step 1)")
    (e2 : t ≠ "Filled password and clicked Next (Gmail step 2)")
    (e3 : t ≠ "Gmail login completed, network idle detected") :
    t ∉ gmailStepLogs c := by
  intro hm
  simp only [gmailStepLogs, List.mem_cons, List.not_mem_nil, or_false] at hm
  rcases hm with h | h | h | h
  · exact visited_ne _ _ hv h.symm
  · exact e1 h
  · exact e2 h
  · exact e3 h

theorem not_mem_gmailLogs (c : Ctx) (t : String)
    (hv : t.data.head? ≠ some 'V')
    (e1 : t ≠ "Filled email or username and clicked Next (Gmail step 1)")
    (e2 : t ≠ "Filled password and clicked Next (Gmail step 2)")
    (e3 : t ≠ "Gmail login completed, network idle detected")
    (e4 : t ≠ "Detected Gmail inbox page, ending login flow") :
    t ∉ gmailLogs c := by
  intro hm
  rcases List.mem_append.mp hm with h | h
  · exact not_mem_gmailStepLogs c t hv e1 e2 e3 h
  · rw [List.mem_singleton] at h
    exact e4 h

/-- C5: in the federated branch (the sanitized URL contains the Gmail
login domain), when the two-step flow succeeds and the resulting URL
contains the post-login application domain `mail.google.com`, the driver
immediately captures screenshot and markup, sets `finalUrl` to that URL,
sets `status = login_attempted`, releases the session (the single
`Event.close`), and returns with logs containing no generic-form entry. -/
theorem C5_gmail_early_success (env : Env) (c : Ctx)
    (h1 : env.enter = none) (h2 : env.launch = none) (h3 : env.newContext = none)
    (h4 : env.newPage = none) (h5 : env.goto = none) (h6 : env.gWaitEmail = none)
    (h7 : env.gFillEmail = none) (h8 : env.gClickNext1 = none)
    (h9 : env.gWaitPassword = none) (h10 : env.gFillPassword = none)
    (h11 : env.gClickNext2 = none) (h12 : env.gWaitIdle = none)
    (h13 : env.gScreenshot = none) (h14 : env.gContent = none)
    (hacc : pyIn "accounts.google.com" (sanitize_url c.url) = true)
    (hmail : pyIn "mail.google.com" env.gmailUrl = true) :
    LoginNode.run env c =
      ({ c with final_url := some env.gmailUrl,
                logs := some (gmailLogs c),
                screenshot := some "screenshot.png",
                html_content := some env.gPageContent,
                status := some "login_attempted" },
       [Event.launch, Event.sleep 2000, Event.close]) ∧
    "Filled username or email" ∉ gmailLogs c ∧
    "Filled password" ∉ gmailLogs c ∧
    "Clicked submit button" ∉ gmailLogs c := by
  refine ⟨?_, ?_, ?_, ?_⟩
  · unfold LoginNode.run loginBody gmailSteps gmailFinish
    rw [h1, h2, h3, h4, h5, h6, h7, h8, h9, h10, h11, h12, h13, h14, hacc, hmail]
    rfl
  · exact not_mem_gmailLogs c _ (by decide) (by decide) (by decide) (by decide) (by decide)
  · exact not_mem_gmailLogs c _ (by decide) (by decide) (by decide) (by decide) (by decide)
  · exact not_mem_gmailLogs c _ (by decide) (by decide) (by decide) (by decide) (by decide)

/-- C5 witness: a concrete federated run landing on the inbox. -/
theorem C5_witness :
    LoginNode.run envGmailInbox reqGmail =
      ({ reqGmail with final_url := some "https://mail.google.com/mail/u/0/",
                       logs := some (gmailLogs reqGmail),
                       screenshot := some "screenshot.png",
                       html_content := some "<html>gmail</html>",
                       status := some "login_attempted" },
       [Event.launch, Event.sleep 2000, Event.close]) ∧
    "Filled username or email" ∉ gmailLogs reqGmail :=
  ⟨(C5_gmail_early_success envGmailInbox reqGmail rfl rfl rfl rfl rfl rfl rfl rfl
      rfl rfl rfl rfl rfl rfl (by decide) (by decide)).1,
   (C5_gmail_early_success envGmailInbox reqGmail rfl rfl rfl rfl rfl rfl rfl rfl
      rfl rfl rfl rfl rfl rfl (by decide) (by decide)).2.1⟩

/-- C6 counterexample: a full pipeline run against the federated login
domain in which the post-login domain is not reached. The claim says the
driver then "falls through to and executes the generic-form branch
(waiting for and filling the username selector, then password, then
clicking submit)" — but the federated case has an empty SelectorSet, so
the generic-form guard is false and none of those steps runs: the logs
contain no generic-form entry, yet the run still ends `login_attempted`. -/
theorem C6_counterexample :
    (run_login_flow baseEnv (mkRequest "https://accounts.google.com/v3/signin" "u" "p")).1.selectors =
      some Sel.empty ∧
    pyIn "mail.google.com" baseEnv.gmailUrl = false ∧
    (run_login_flow baseEnv (mkRequest "https://accounts.google.com/v3/signin" "u" "p")).1.status =
      some "login_attempted" ∧
    "Filled username or email" ∉
      ((run_login_flow baseEnv (mkRequest "https://accounts.google.com/v3/signin" "u" "p")).1.logs).getD [] ∧
    "Filled password" ∉
      ((run_login_flow baseEnv (mkRequest "https://accounts.google.com/v3/signin" "u" "p")).1.logs).getD [] ∧
    "Clicked submit button" ∉
      ((run_login_flow baseEnv (mkRequest "https://accounts.google.com/v3/signin" "u" "p")).1.logs).getD [] := by
  decide

/-- C6 (amended): in the federated branch with the empty SelectorSet the
resolver produces, when `mail.google.com` is not reached after the
two-step flow, the driver falls through past the Gmail early return, but
— the generic-form guard `selectors.get("username")` being falsy — skips
every generic-form step and proceeds directly to evidence capture,
ending `login_attempted` (inconclusive, not fatal), with no generic-form
log entry. -/
theorem C6_federated_inconclusive (env : Env) (c : Ctx)
    (h1 : env.enter = none) (h2 : env.launch = none) (h3 : env.newContext = none)
    (h4 : env.newPage = none) (h5 : env.goto = none) (h6 : env.gWaitEmail = none)
    (h7 : env.gFillEmail = none) (h8 : env.gClickNext1 = none)
    (h9 : env.gWaitPassword = none) (h10 : env.gFillPassword = none)
    (h11 : env.gClickNext2 = none) (h12 : env.gWaitIdle = none)
    (hshot : env.shot = none) (hcontent : env.content = none)
    (hsel : c.selectors = some Sel.empty)
    (hacc : pyIn "accounts.google.com" (sanitize_url c.url) = true)
    (hmail : pyIn "mail.google.com" env.gmailUrl = false) :
    LoginNode.run env c =
      ({ c with final_url := some env.endUrl,
                logs := some (gmailStepLogs c),
                screenshot := some "screenshot.png",
                html_content := some env.pageContent,
                status := some "login_attempted" },
       [Event.launch, Event.sleep 2000, Event.close]) ∧
    "Filled username or email" ∉ gmailStepLogs c ∧
    "Filled password" ∉ gmailStepLogs c ∧
    "Clicked submit button" ∉ gmailStepLogs c := by
  refine ⟨?_, ?_, ?_, ?_⟩
  · have hsel' : c.selectors.getD Sel.empty = Sel.empty := by rw [hsel]; rfl
    unfold LoginNode.run loginBody gmailSteps genFinish capturePart
    rw [h1, h2, h3, h4, h5, h6, h7, h8, h9, h10, h11, h12, hshot, hcontent,
      hsel', hacc, hmail]
    rfl
  · exact not_mem_gmailStepLogs c _ (by decide) (by decide) (by decide) (by decide)
  · exact not_mem_gmailStepLogs c _ (by decide) (by decide) (by decide) (by decide)
  · exact not_mem_gmailStepLogs c _ (by decide) (by decide) (by decide) (by decide)

/-- C6 (amended) witness: a concrete federated run that does not reach
the inbox. -/
theorem C6_witness :
    LoginNode.run baseEnv reqGmailSel =
      ({ reqGmailSel with final_url := some "https://site.example/home",
                          logs := some (gmailStepLogs reqGmailSel),
                          screenshot := some "screenshot.png",
                          html_content := some "<html>page</html>",
                          status := some "login_attempted" },
       [Event.launch, Event.sleep 2000, Event.close]) ∧
    "Clicked submit button" ∉ gmailStepLogs reqGmailSel :=
  ⟨(C6_federated_inconclusive baseEnv reqGmailSel rfl rfl rfl rfl rfl rfl rfl rfl
      rfl rfl rfl rfl rfl rfl rfl (by decide) (by decide)).1,
   (C6_federated_inconclusive baseEnv reqGmailSel rfl rfl rfl rfl rfl rfl rfl rfl
      rfl rfl rfl rfl rfl rfl rfl (by decide) (by decide)).2.2.2⟩

theorem urlChanged_ne_timeout (x : String) :
    ("URL changed after login submit to " ++ x) ≠
      "URL did not change after login submit within timeout" := by
  intro h
  have h2 : ("URL changed after login submit to " ++ x).data.get? 4 = some 'c' := rfl
  rw [h] at h2
  exact absurd h2 (by decide)

theorem timeout_not_mem_pollLogs (old : String) (f : Nat → String) :
    ∀ fuel i,
      "URL did not change after login submit within timeout" ∉ (pollAux old f i fuel).1 := by
  intro fuel
  induction fuel with
  | zero => intro i; simp [pollAux]
  | succ fuel ih =>
    intro i
    unfold pollAux
    dsimp only
    split
    · split
      · intro hm
        rcases List.mem_cons.mp hm with h | h
        · exact urlChanged_ne_timeout _ h.symm
        · rw [List.mem_singleton] at h
          exact absurd h (by decide)
      · intro hm
        rcases List.mem_cons.mp hm with h | h
        · exact urlChanged_ne_timeout _ h.symm
        · exact ih (i + 1) h
    · intro hm
      rcases List.mem_cons.mp hm with h | h
      · exact absurd h (by decide)
      · exact ih (i + 1) h

theorem timeout_mem_genericRunLogs (env : Env) (c : Ctx) :
    "URL did not change after login submit within timeout" ∈ genericRunLogs env c ↔
      (pollAux env.oldUrl env.pollUrl 0 60).2.2 = false := by
  unfold genericRunLogs
  cases hb : (pollAux env.oldUrl env.pollUrl 0 60).2.2
  · simp only [hb, Bool.false_eq_true, if_false]
    constructor
    · intro _; trivial
    · intro _
      exact List.mem_append.mpr (Or.inl (List.mem_append.mpr (Or.inl
        (List.mem_append.mpr (Or.inr (List.mem_append.mpr (Or.inr
          (List.mem_singleton.mpr rfl))))))))
  · simp only [hb, eq_self_iff_true, if_true]
    constructor
    · intro hm
      exfalso
      rcases List.mem_append.mp hm with hm1 | hm1
      · rcases List.mem_append.mp hm1 with hm2 | hm2
        · rcases List.mem_append.mp hm2 with hm3 | hm3
          · simp only [List.mem_cons, List.not_mem_nil, or_false] at hm3
            rcases hm3 with h | h | h | h
            · exact visited_ne _ _ (by decide) h.symm
            · exact absurd h (by decide)
            · exact absurd h (by decide)
            · exact absurd h (by decide)
          · exact timeout_not_mem_pollLogs _ _ 60 0 hm3
        · rw [List.mem_singleton] at hm2
          cases hn : env.navBar <;> simp [hn] at hm2
      · rw [List.mem_singleton] at hm1
        exact absurd hm1 (by decide)
    · intro h
      exact absurd h (by decide)

/-- C7 counterexample: a full pipeline run of a generic site whose URL
changes (to a non-Salesforce URL) in the very first poll iteration. The
loop runs all 60 iterations without breaking, and the log entry saying
the URL "did not change within timeout" is appended anyway — refuting
"appended exactly when the loop exhausts without the URL ever changing". -/
theorem C7_counterexample :
    "URL changed after login submit to https://site.example/home" ∈
      ((run_login_flow envPollChanged (mkRequest "https://site.example/login" "u" "p")).1.logs).getD [] ∧
    "URL did not change after login submit within timeout" ∈
      ((run_login_flow envPollChanged (mkRequest "https://site.example/login" "u" "p")).1.logs).getD [] ∧
    (run_login_flow envPollChanged (mkRequest "https://site.example/login" "u" "p")).1.status =
      some "login_attempted" := by
  decide

/-- C7 (amended): in every generic-form run, the polling loop executes
at most 60 iterations, each preceded by a 2-second sleep (the
`Event.sleep 2000` entries of the trace); the "did not change within
timeout" entry is appended exactly when the loop exhausts all 60
iterations without the Salesforce-pattern `break` (whether or not the
URL changed); and loop exhaustion does not fail the run — the driver
still captures screenshot and markup and sets `status = login_attempted`. -/
theorem C7_polling_loop (env : Env) (c : Ctx) (sel : Sel)
    (h1 : env.enter = none) (h2 : env.launch = none) (h3 : env.newContext = none)
    (h4 : env.newPage = none) (h5 : env.goto = none)
    (hacc : pyIn "accounts.google.com" (sanitize_url c.url) = false)
    (hsel : c.selectors = some sel) (huser : truthy sel.username = true)
    (hu1 : env.uWaitUsername = none) (hu2 : env.uFillUsername = none)
    (hu3 : env.uWaitPassword = none) (hu4 : env.uFillPassword = none)
    (hu5 : env.uWaitSubmit = none) (hu6 : env.uClickSubmit = none)
    (hshot : env.shot = none) (hcontent : env.content = none) :
    LoginNode.run env c =
      ({ c with final_url := some env.endUrl,
                logs := some (genericRunLogs env c),
                screenshot := some "screenshot.png",
                html_content := some env.pageContent,
                status := some "login_attempted" },
       genericRunEvents env) ∧
    (pollAux env.oldUrl env.pollUrl 0 60).2.1 ≤ 60 ∧
    ("URL did not change after login submit within timeout" ∈ genericRunLogs env c ↔
      (pollAux env.oldUrl env.pollUrl 0 60).2.2 = false) := by
  refine ⟨?_, pollAux_le env.oldUrl env.pollUrl 60 0, timeout_mem_genericRunLogs env c⟩
  have hsel' : c.selectors.getD Sel.empty = sel := by rw [hsel]; rfl
  unfold LoginNode.run loginBody genFinish genForm navTry capturePart
    genericRunLogs genericRunEvents
  rw [h1, h2, h3, h4, h5, hacc, hsel', huser, hu1, hu2, hu3, hu4, hu5, hu6,
    hshot, hcontent]
  cases hn : env.navBar
  · rfl
  · rfl

/-- C7 witness: the concrete changed-URL scenario runs the full loop. -/
theorem C7_witness :
    (LoginNode.run envPollChanged reqGenericSel).1.status = some "login_attempted" ∧
    (pollAux envPollChanged.oldUrl envPollChanged.pollUrl 0 60).2.1 ≤ 60 ∧
    ("URL did not change after login submit within timeout" ∈
        genericRunLogs envPollChanged reqGenericSel ↔
      (pollAux envPollChanged.oldUrl envPollChanged.pollUrl 0 60).2.2 = false) := by
  have h := C7_polling_loop envPollChanged reqGenericSel Sel.generic rfl rfl rfl rfl rfl
    (by decide) rfl (by decide) rfl rfl rfl rfl rfl rfl rfl rfl
  refine ⟨?_, h.2.1, h.2.2⟩
  rw [h.1]
